import Mathlib

/-!
Verification of the expo-build-service HTTP server (buildHandler.go).

The Go program is shallowly embedded as pure Lean functions.  External
effects (the environment, `os.MkdirTemp`, `os.MkdirAll`, running `git`,
`npm` and `eas`, `os.Stat`, `os.Open`) are modelled by oracle records
passed to the embedded functions; each embedded handler returns a trace
recording the HTTP status it would write together with which external
processes it spawned (and under which cancellation context), whether the
temporary workspace directory was created, and whether the deferred
`os.RemoveAll` removed it.  Durations are integers of nanoseconds, as in
Go's `time.Duration`.
-/

/-- A Go `context.Context`, modelled syntactically: a context is either the
request's base context or a context derived from a parent by
`context.WithTimeout(parent, d)` with `d` nanoseconds. -/
inductive Ctx
  | background
  | withTimeout (parent : Ctx) (timeoutNs : Int)
deriving DecidableEq, BEq, Repr

/-- Go `time.Minute` in nanoseconds. -/
def goMinuteNs : Int := 60 * 1000000000

/-- The `Config` struct of buildHandler.go. `BuildTimeout` is in
nanoseconds (Go `time.Duration`). -/
structure Config where
  ServerPort : String
  LogDirectory : String
  LogFile : String
  BuildTimeout : Int
  TempDirPrefix : String
  UpdateScriptPath : String
  AllowedPlatforms : List String
  DefaultCloneBranch : String
deriving DecidableEq, Repr

/-- `getEnv` of buildHandler.go: return the environment value, or the
default when the variable is unset or empty.  `env` is the process
environment, with `env key = ""` meaning the variable is unset. -/
def getEnv (env : String → String) (key defaultValue : String) : String :=
  if env key = "" then defaultValue else env key

/-- `parseDuration` of buildHandler.go: parse with `time.ParseDuration`
(here the oracle `timeParse`, returning nanoseconds, `none` on parse
error) and fall back to 60 minutes when the string does not parse. -/
def parseDuration (timeParse : String → Option Int) (durationStr : String) : Int :=
  match timeParse durationStr with
  | none => 60 * goMinuteNs
  | some d => d

/-- `loadConfig` of buildHandler.go: every field comes from an
environment variable with a default. -/
def loadConfig (env : String → String) (timeParse : String → Option Int) : Config :=
  { ServerPort := getEnv env "SERVER_PORT" "8080"
    LogDirectory := getEnv env "LOG_DIRECTORY" "/home/server/expo-build-service/logs"
    LogFile := getEnv env "LOG_FILE" "server.log"
    BuildTimeout := parseDuration timeParse (getEnv env "BUILD_TIMEOUT" "60m")
    TempDirPrefix := getEnv env "TEMP_DIR_PREFIX" "build-"
    UpdateScriptPath := getEnv env "UPDATE_SCRIPT_PATH" "/home/server/expo-build-service/update_server.sh"
    AllowedPlatforms := (getEnv env "ALLOWED_PLATFORMS" "android,ios").splitOn ","
    DefaultCloneBranch := getEnv env "DEFAULT_CLONE_BRANCH" "main" }

/-- The `BuildRequest` JSON payload of buildHandler.go. -/
structure BuildRequest where
  RepoURL : String
  Platform : String
  PackagePath : String
  UpdateServer : Bool
deriving DecidableEq, Repr

/-- Go `strings.ContainsAny s chars`: some character of `s` occurs in
`chars`. -/
def containsAny (s chars : String) : Bool :=
  s.data.any (fun c => chars.data.contains c)

/-- Go `filepath.Join` for the non-degenerate case used by the handler
(joining with the separator). -/
def filepathJoin (a b : String) : String := a ++ "/" ++ b

/-- Oracle for the external effects of `cloneOrUpdateRepo`:
whether `os.MkdirAll` on the parent directory succeeds, the result of
running the `git` process (`none` = exit 0, `some e` = the error string
of `cmd.Run`), and the combined stdout+stderr captured in the buffer. -/
structure CloneFx where
  mkdirAllOk : Bool
  gitExit : Option String
  gitOutput : String
deriving DecidableEq, Repr

/-- The error values `cloneOrUpdateRepo` can return, one constructor per
`return fmt.Errorf(...)` in the Go source, carrying the data the Go code
interpolates into the message. -/
inductive CloneError
  | invalidRepoURL
  | mkdirParentFailed
  | cloneFailed (procErr : String) (combinedOutput : String)
deriving DecidableEq, Repr

/-- Trace of one `cloneOrUpdateRepo` call: the `git` process launch (its
context and argv) when the code reached `cloneCmd.Run()`, and the
returned error (`none` = nil). -/
structure CloneTrace where
  spawned : Option (Ctx × List String)
  result : Option CloneError
deriving DecidableEq, Repr

/-- The argv of the `git` process built by `cloneOrUpdateRepo`
(`exec.CommandContext(ctx, "git", "clone", "--depth", "1",
"--single-branch", "--branch", "main", repoURL, clonePath)`).  The
branch name is the literal `"main"` in the source. -/
def gitCloneArgv (repoURL clonePath : String) : List String :=
  ["git", "clone", "--depth", "1", "--single-branch", "--branch", "main", repoURL, clonePath]

/-- `cloneOrUpdateRepo` of buildHandler.go. -/
def cloneOrUpdateRepo (fx : CloneFx) (ctx : Ctx) (repoURL clonePath : String) : CloneTrace :=
  if containsAny repoURL ";&" then
    { spawned := none, result := some CloneError.invalidRepoURL }
  else if fx.mkdirAllOk = false then
    { spawned := none, result := some CloneError.mkdirParentFailed }
  else
    match fx.gitExit with
    | none => { spawned := some (ctx, gitCloneArgv repoURL clonePath), result := none }
    | some e =>
        { spawned := some (ctx, gitCloneArgv repoURL clonePath)
          result := some (CloneError.cloneFailed e fx.gitOutput) }

/-- Oracle for `runNpmInstall`: the result of `installCmd.CombinedOutput()`
(`none` = exit 0) and the combined output. -/
structure NpmFx where
  npmExit : Option String
  npmOutput : String
deriving DecidableEq, Repr

/-- The error `runNpmInstall` can return. -/
inductive InstallError
  | installFailed (procErr : String) (combinedOutput : String)
deriving DecidableEq, Repr

/-- Trace of one `runNpmInstall` call: the `npm install` process launch
(context and working directory) and the returned error. -/
structure InstallTrace where
  spawned : Option (Ctx × String)
  result : Option InstallError
deriving DecidableEq, Repr

/-- `runNpmInstall` of buildHandler.go: always runs `npm install` in the
package directory; a non-zero exit becomes an error carrying the
combined output. -/
def runNpmInstall (fx : NpmFx) (ctx : Ctx) (packagePath : String) : InstallTrace :=
  match fx.npmExit with
  | none => { spawned := some (ctx, packagePath), result := none }
  | some e =>
      { spawned := some (ctx, packagePath)
        result := some (InstallError.installFailed e fx.npmOutput) }

/-- Result of `os.Stat` in `buildApp`: the file exists (nil error), the
error satisfies `os.IsNotExist`, or some other stat error. -/
inductive StatResult
  | found
  | notExist
  | otherError (e : String)
deriving DecidableEq, Repr

/-- Oracle for `buildApp`: result of `buildCmd.CombinedOutput()` and the
`os.Stat` outcome on the built file path. -/
structure AppFx where
  easExit : Option String
  easOutput : String
  statBuilt : StatResult
deriving DecidableEq, Repr

/-- The errors `buildApp` can return, one per `return fmt.Errorf(...)`. -/
inductive BuildError
  | unsupportedPlatform (platform : String)
  | buildFailed (procErr : String) (combinedOutput : String)
  | builtFileNotFound (path : String)
deriving DecidableEq, Repr

/-- Trace of one `buildApp` call: the `eas` process launch (context,
argv, working directory) and the returned error. -/
structure BuildAppTrace where
  spawned : Option (Ctx × List String × String)
  result : Option BuildError
deriving DecidableEq, Repr

/-- The `validPlatforms` map lookup of `buildApp`:
`map[string]bool{"android": true, "ios": true}[platform]`. -/
def validPlatforms (platform : String) : Bool :=
  platform = "android" || platform = "ios"

/-- The argv of the `eas` process built by `buildApp`. -/
def easBuildArgv (platform outputFile : String) : List String :=
  ["eas", "build", "--platform", platform, "--local", "--output", outputFile]

/-- `buildApp` of buildHandler.go: reject an unsupported platform before
spawning anything; run `eas build`; after a successful exit, check the
built file with `os.Stat` and fail when `os.IsNotExist` holds. -/
def buildApp (fx : AppFx) (ctx : Ctx) (packagePath platform outputFile : String) : BuildAppTrace :=
  if !validPlatforms platform then
    { spawned := none, result := some (BuildError.unsupportedPlatform platform) }
  else
    match fx.easExit with
    | some e =>
        { spawned := some (ctx, easBuildArgv platform outputFile, packagePath)
          result := some (BuildError.buildFailed e fx.easOutput) }
    | none =>
        match fx.statBuilt with
        | StatResult.notExist =>
            { spawned := some (ctx, easBuildArgv platform outputFile, packagePath)
              result := some (BuildError.builtFileNotFound (filepathJoin packagePath outputFile)) }
        | _ =>
            { spawned := some (ctx, easBuildArgv platform outputFile, packagePath)
              result := none }

/-- The `switch req.Platform` of `buildHandler` choosing output file name
and content type; `none` corresponds to the `default:` branch
(`http.Error(w, "Unsupported platform", 400)`). -/
def platformOutput (platform buildID : String) : Option (String × String) :=
  if platform = "android" then
    some ("app-" ++ buildID ++ ".apk", "application/vnd.android.package-archive")
  else if platform = "ios" then
    some ("app-" ++ buildID ++ ".ipa", "application/octet-stream")
  else none

/-- Oracle for the effects of one `buildHandler` run: whether
`os.MkdirTemp` succeeds and the path it returns, the timestamp id from
`generateTimestampID`, the sub-oracles of the three external steps, and
whether `os.Open` on the built file succeeds. -/
structure Fx where
  mkdirTempOk : Bool
  tempDirName : String
  buildID : String
  cloneFx : CloneFx
  npmFx : NpmFx
  appFx : AppFx
  openBuiltOk : Bool
deriving DecidableEq, Repr

/-- Trace of one `buildHandler` run: the HTTP status written, whether the
temporary workspace was created, whether the deferred `os.RemoveAll`
removed it on the way out, the traces of the clone, install and build
steps (`none` when the step was never reached), and whether the built
artifact was streamed to the client. -/
structure BuildTrace where
  status : Nat
  tempDirCreated : Bool
  tempDirRemoved : Bool
  clone : Option CloneTrace
  install : Option InstallTrace
  build : Option BuildAppTrace
  served : Bool
deriving DecidableEq, Repr

/-- `buildHandler` of buildHandler.go.  `reqCtx` is `r.Context()`;
`body` is the result of decoding the JSON body (`none` = decode error).
The deferred `os.RemoveAll(tempDir)` is reflected by `tempDirRemoved :=
true` on every exit path reached after `os.MkdirTemp` succeeded. -/
def buildHandler (cfg : Config) (fx : Fx) (reqCtx : Ctx) (body : Option BuildRequest) : BuildTrace :=
  let ctx := Ctx.withTimeout reqCtx cfg.BuildTimeout
  match body with
  | none =>
      { status := 400, tempDirCreated := false, tempDirRemoved := false
        clone := none, install := none, build := none, served := false }
  | some req =>
    if req.RepoURL = "" || req.Platform = "" || req.PackagePath = "" then
      { status := 400, tempDirCreated := false, tempDirRemoved := false
        clone := none, install := none, build := none, served := false }
    else if fx.mkdirTempOk = false then
      { status := 500, tempDirCreated := false, tempDirRemoved := false
        clone := none, install := none, build := none, served := false }
    else
      let tempDir := fx.tempDirName
      let clonePath := filepathJoin tempDir "repo"
      let ct := cloneOrUpdateRepo fx.cloneFx ctx req.RepoURL clonePath
      match ct.result with
      | some _ =>
          { status := 500, tempDirCreated := true, tempDirRemoved := true
            clone := some ct, install := none, build := none, served := false }
      | none =>
        let packagePath := filepathJoin clonePath req.PackagePath
        let it := runNpmInstall fx.npmFx ctx packagePath
        match it.result with
        | some _ =>
            { status := 500, tempDirCreated := true, tempDirRemoved := true
              clone := some ct, install := some it, build := none, served := false }
        | none =>
          match platformOutput req.Platform fx.buildID with
          | none =>
              { status := 400, tempDirCreated := true, tempDirRemoved := true
                clone := some ct, install := some it, build := none, served := false }
          | some (outputFile, _contentType) =>
            let bt := buildApp fx.appFx ctx packagePath req.Platform outputFile
            match bt.result with
            | some _ =>
                { status := 500, tempDirCreated := true, tempDirRemoved := true
                  clone := some ct, install := some it, build := some bt, served := false }
            | none =>
              if fx.openBuiltOk = false then
                { status := 500, tempDirCreated := true, tempDirRemoved := true
                  clone := some ct, install := some it, build := some bt, served := false }
              else
                { status := 200, tempDirCreated := true, tempDirRemoved := true
                  clone := some ct, install := some it, build := some bt, served := true }

/-- The trace `authenticate` produces on a token mismatch: 401, nothing
else happens. -/
def unauthorizedBuildTrace : BuildTrace :=
  { status := 401, tempDirCreated := false, tempDirRemoved := false
    clone := none, install := none, build := none, served := false }

/-- The `authenticate` middleware of buildHandler.go: compare the
`Authorization` header against `"Bearer " + AUTH_TOKEN`; on mismatch
write 401 and return without calling the wrapped handler. -/
def authenticate (authHeader expectedToken : String) (next : Unit → BuildTrace) : BuildTrace :=
  if authHeader ≠ "Bearer " ++ expectedToken then unauthorizedBuildTrace else next ()

/-- The `/build` endpoint as registered in `main`:
`authenticate(buildHandler(config))`. -/
def buildEndpoint (cfg : Config) (fx : Fx) (reqCtx : Ctx) (authHeader authToken : String)
    (body : Option BuildRequest) : BuildTrace :=
  authenticate authHeader authToken (fun _ => buildHandler cfg fx reqCtx body)

/-- Trace of one `updateHandler` run: the HTTP status written, whether
the background goroutine running the update script was started, and the
script path it runs. -/
structure UpdateTrace where
  status : Nat
  startedUpdate : Bool
  scriptRun : Option String
deriving DecidableEq, Repr

/-- `updateHandler` of buildHandler.go: compare the `Authorization`
header against `"Bearer " + UPDATE_AUTH_TOKEN`; on mismatch write 401;
otherwise start the background goroutine running
`config.UpdateScriptPath` and return (net/http then writes an implicit
200).  The handler reads and writes no shared in-progress state. -/
def updateHandler (cfg : Config) (updateAuthToken authHeader : String) : UpdateTrace :=
  if authHeader ≠ "Bearer " ++ updateAuthToken then
    { status := 401, startedUpdate := false, scriptRun := none }
  else
    { status := 200, startedUpdate := true, scriptRun := some cfg.UpdateScriptPath }

/-- Statistics of a sequence of `/update` triggers delivered before any
background update finishes: how many background update executions were
started and how many 409 responses were written.  Since `updateHandler`
keeps no state between requests, the per-request traces compose by a
fold. -/
def updateTriggerStats (cfg : Config) (updateAuthToken : String) (headers : List String) : Nat × Nat :=
  headers.foldl
    (fun acc h =>
      let t := updateHandler cfg updateAuthToken h
      ((if t.startedUpdate then acc.1 + 1 else acc.1),
       (if t.status = 409 then acc.2 + 1 else acc.2)))
    (0, 0)

/-- The context of the `git` process launch recorded in a clone trace,
as a list (empty when no process was spawned). -/
def cloneSpawnCtxs : Option (Ctx × List String) → List Ctx
  | some (c, _) => [c]
  | none => []

/-- The context of the `npm` process launch recorded in an install
trace, as a list. -/
def installSpawnCtxs : Option (Ctx × String) → List Ctx
  | some (c, _) => [c]
  | none => []

/-- The context of the `eas` process launch recorded in a build-app
trace, as a list. -/
def buildSpawnCtxs : Option (Ctx × List String × String) → List Ctx
  | some (c, _) => [c]
  | none => []

/-- The contexts of all external processes spawned during one
`buildHandler` run. -/
def spawnedCtxList (t : BuildTrace) : List Ctx :=
  (match t.clone with | some ct => cloneSpawnCtxs ct.spawned | none => [])
    ++ (match t.install with | some it => installSpawnCtxs it.spawned | none => [])
    ++ (match t.build with | some bt => buildSpawnCtxs bt.spawned | none => [])

/-- Whether the clone step of a build trace spawned the `git` process. -/
def cloneSpawnedIn (t : BuildTrace) : Bool :=
  match t.clone with
  | some ct => ct.spawned.isSome
  | none => false

/-- Whether the install step of a build trace spawned the `npm` process. -/
def installSpawnedIn (t : BuildTrace) : Bool :=
  match t.install with
  | some it => it.spawned.isSome
  | none => false

/-- Whether the build step of a build trace spawned the `eas` process. -/
def easSpawnedIn (t : BuildTrace) : Bool :=
  match t.build with
  | some bt => bt.spawned.isSome
  | none => false

/-! ### Fixtures for concrete evaluations -/

/-- A `time.ParseDuration` oracle that parses exactly the default string
`"60m"` (to 60 minutes in nanoseconds). -/
def sampleTimeParse : String → Option Int :=
  fun s => if s = "60m" then some 3600000000000 else none

/-- The configuration obtained from an empty environment: every field is
its default. -/
def sampleConfig : Config := loadConfig (fun _ => "") sampleTimeParse

/-- Clone effects where everything succeeds. -/
def happyCloneFx : CloneFx := { mkdirAllOk := true, gitExit := none, gitOutput := "" }

/-- Clone effects where the `git` process exits non-zero. -/
def failCloneFx : CloneFx :=
  { mkdirAllOk := true, gitExit := some "exit status 128", gitOutput := "fatal: repository not found" }

/-- Build-handler effects where every external step succeeds. -/
def happyFx : Fx :=
  { mkdirTempOk := true
    tempDirName := "/tmp/build-20250101-1200."
    buildID := "20250101-1200"
    cloneFx := happyCloneFx
    npmFx := { npmExit := none, npmOutput := "" }
    appFx := { easExit := none, easOutput := "", statBuilt := StatResult.found }
    openBuiltOk := true }

/-- A request whose fields are all non-empty but whose platform is
outside the allow-set. -/
def c2req : BuildRequest :=
  { RepoURL := "https://example.com/app.git", Platform := "windows"
    PackagePath := "app", UpdateServer := false }

/-- A request whose fields are all non-empty with platform `android`. -/
def androidReq : BuildRequest :=
  { RepoURL := "https://example.com/app.git", Platform := "android"
    PackagePath := "app", UpdateServer := false }

/-! ### Claims -/

/-- Claim C1: the claim says a `/update` trigger arriving while an update
is in progress is rejected with 409 and starts no new work, via an
`updateInProgress` flag that is set on acceptance and cleared on
completion.  The code has no such flag: `updateHandler` reads no shared
state, never writes 409, and starts a background update run on every
authenticated trigger.  Evaluating the embedded handler at the failing
input — two authenticated triggers delivered before the first background
update finishes — yields two background executions and zero 409
responses, where the claim requires exactly one of each. -/
theorem c1_update_two_triggers_two_executions_no_409 :
    updateTriggerStats sampleConfig "secret" ["Bearer secret", "Bearer secret"] = (2, 0)
    ∧ (updateHandler sampleConfig "secret" "Bearer secret").status = 200
    ∧ (updateHandler sampleConfig "secret" "Bearer secret").startedUpdate = true := by
  refine ⟨?_, ?_, ?_⟩ <;> rfl

/-- Claim C2 (counterexample): the claim says an authenticated `/build`
request with all fields non-empty but platform outside
`{android, ios}` gets a 4xx without the fetch (git clone) or install
(npm install) steps being invoked.  On the concrete request with
platform `"windows"` the handler does return 400, but the trace shows
both the `git` and the `npm` processes were spawned first: the platform
switch sits after the clone and install steps in the source. -/
theorem c2_platform_after_clone_and_install :
    (buildHandler sampleConfig happyFx Ctx.background (some c2req)).status = 400
    ∧ cloneSpawnedIn (buildHandler sampleConfig happyFx Ctx.background (some c2req)) = true
    ∧ installSpawnedIn (buildHandler sampleConfig happyFx Ctx.background (some c2req)) = true := by
  refine ⟨?_, ?_, ?_⟩ <;> rfl

/-- Claim C2 (amended): for an authenticated `/build` request with all
three fields non-empty and a platform outside `{android, ios}`, when the
preceding steps succeed the service returns 400 and the build tool
(`eas`) is never spawned — but the fetch and install steps have already
run by then: the platform is validated after clone and install, before
the build-tool spawn only. -/
theorem c2_amended_platform_checked_before_build_spawn
    (cfg : Config) (fx : Fx) (reqCtx : Ctx) (req : BuildRequest)
    (hr : req.RepoURL ≠ "") (hp : req.Platform ≠ "") (hpp : req.PackagePath ≠ "")
    (hand : req.Platform ≠ "android") (hios : req.Platform ≠ "ios")
    (hmk : fx.mkdirTempOk = true)
    (hurl : containsAny req.RepoURL ";&" = false)
    (hparent : fx.cloneFx.mkdirAllOk = true)
    (hgit : fx.cloneFx.gitExit = none)
    (hnpm : fx.npmFx.npmExit = none) :
    (buildHandler cfg fx reqCtx (some req)).status = 400
    ∧ easSpawnedIn (buildHandler cfg fx reqCtx (some req)) = false
    ∧ cloneSpawnedIn (buildHandler cfg fx reqCtx (some req)) = true
    ∧ installSpawnedIn (buildHandler cfg fx reqCtx (some req)) = true := by
  unfold buildHandler cloneOrUpdateRepo runNpmInstall platformOutput
  simp [cloneSpawnedIn, installSpawnedIn, easSpawnedIn, hr, hp, hpp, hand, hios, hmk, hurl,
    hparent, hgit, hnpm]

/-- Witness for C2 (amended) at the concrete `"windows"` request. -/
theorem c2_amended_witness :
    (buildHandler sampleConfig happyFx Ctx.background (some c2req)).status = 400
    ∧ easSpawnedIn (buildHandler sampleConfig happyFx Ctx.background (some c2req)) = false
    ∧ cloneSpawnedIn (buildHandler sampleConfig happyFx Ctx.background (some c2req)) = true
    ∧ installSpawnedIn (buildHandler sampleConfig happyFx Ctx.background (some c2req)) = true :=
  c2_amended_platform_checked_before_build_spawn sampleConfig happyFx Ctx.background c2req
    (by decide) (by decide) (by decide) (by decide) (by decide) rfl (by decide) rfl rfl rfl

/-- The environment with only `DEFAULT_CLONE_BRANCH` set, to `develop`. -/
def envDevelop : String → String :=
  fun k => if k = "DEFAULT_CLONE_BRANCH" then "develop" else ""

/-- The configuration loaded from `envDevelop`. -/
def cfgDevelop : Config := loadConfig envDevelop sampleTimeParse

/-- The value following `"--branch"` in an argv, if any. -/
def branchArgOf : List String → Option String
  | [] => none
  | "--branch" :: b :: _ => some b
  | _ :: rest => branchArgOf rest

/-- Claim C3 (counterexample): the claim says the clone checks out the
configured default-clone-branch value.  With `DEFAULT_CLONE_BRANCH`
configured to `develop`, the `git` argv spawned by `cloneOrUpdateRepo`
still carries branch `"main"`: the branch name is a string literal in
the source and the `DefaultCloneBranch` configuration field is never
read. -/
theorem c3_clone_branch_ignores_config :
    cfgDevelop.DefaultCloneBranch = "develop"
    ∧ (cloneOrUpdateRepo happyCloneFx Ctx.background "https://example.com/app.git" "/tmp/b/repo").spawned
        = some (Ctx.background, gitCloneArgv "https://example.com/app.git" "/tmp/b/repo")
    ∧ branchArgOf (gitCloneArgv "https://example.com/app.git" "/tmp/b/repo") = some "main"
    ∧ cfgDevelop.DefaultCloneBranch ≠ "main" := by
  refine ⟨rfl, rfl, rfl, by decide⟩

/-- Claim C3 (amended): for every accepted repository URL (no `;`/`&`,
parent directory created), the fetch spawns `git clone --depth 1
--single-branch --branch main <url> <dest>` — a shallow, single-branch
clone of the literal branch `main`, ignoring the default-clone-branch
configuration value — and a non-zero exit of the clone process yields a
fetch failure carrying the captured combined output. -/
theorem c3_amended_clone_shallow_main_branch
    (fx : CloneFx) (ctx : Ctx) (repoURL clonePath : String)
    (hurl : containsAny repoURL ";&" = false)
    (hmk : fx.mkdirAllOk = true) :
    (cloneOrUpdateRepo fx ctx repoURL clonePath).spawned
      = some (ctx, ["git", "clone", "--depth", "1", "--single-branch", "--branch", "main",
          repoURL, clonePath])
    ∧ (cloneOrUpdateRepo fx ctx repoURL clonePath).result
      = Option.map (fun e => CloneError.cloneFailed e fx.gitOutput) fx.gitExit := by
  unfold cloneOrUpdateRepo gitCloneArgv
  cases h : fx.gitExit <;> simp [hurl, hmk, h]

/-- Witness for C3 (amended) at a concrete URL with a failing clone. -/
theorem c3_amended_witness :
    (cloneOrUpdateRepo failCloneFx Ctx.background "https://example.com/app.git" "/tmp/b/repo").spawned
      = some (Ctx.background, ["git", "clone", "--depth", "1", "--single-branch", "--branch",
          "main", "https://example.com/app.git", "/tmp/b/repo"])
    ∧ (cloneOrUpdateRepo failCloneFx Ctx.background "https://example.com/app.git" "/tmp/b/repo").result
      = Option.map (fun e => CloneError.cloneFailed e failCloneFx.gitOutput) failCloneFx.gitExit :=
  c3_amended_clone_shallow_main_branch failCloneFx Ctx.background
    "https://example.com/app.git" "/tmp/b/repo" (by decide) rfl

/-- Claim C5: a `repo_url` containing `;` or `&` is rejected by
`cloneOrUpdateRepo` with an error before any external process is
spawned: the branch launching the `git` process is unreachable. -/
theorem c5_injection_guard
    (fx : CloneFx) (ctx : Ctx) (repoURL clonePath : String)
    (h : (Char.ofNat 59 ∈ repoURL.data) ∨ (Char.ofNat 38 ∈ repoURL.data)) :
    (cloneOrUpdateRepo fx ctx repoURL clonePath).spawned = none
    ∧ (cloneOrUpdateRepo fx ctx repoURL clonePath).result = some CloneError.invalidRepoURL := by
  have hc : containsAny repoURL ";&" = true := by
    unfold containsAny
    cases h with
    | inl hm => exact List.any_eq_true.mpr ⟨Char.ofNat 59, hm, by decide⟩
    | inr hm => exact List.any_eq_true.mpr ⟨Char.ofNat 38, hm, by decide⟩
  unfold cloneOrUpdateRepo
  simp [hc]

/-- Witness for C5 at a URL containing a semicolon. -/
theorem c5_injection_guard_witness :
    (cloneOrUpdateRepo happyCloneFx Ctx.background "https://e.com/a;rm.git" "/tmp/b/repo").spawned = none
    ∧ (cloneOrUpdateRepo happyCloneFx Ctx.background "https://e.com/a;rm.git" "/tmp/b/repo").result
      = some CloneError.invalidRepoURL :=
  c5_injection_guard happyCloneFx Ctx.background "https://e.com/a;rm.git" "/tmp/b/repo"
    (Or.inl (by decide))

/-- In every branch of `buildHandler`, the deferred `os.RemoveAll` runs
exactly when `os.MkdirTemp` succeeded: the removed flag equals the
created flag. -/
theorem buildHandler_removed_eq_created
    (cfg : Config) (fx : Fx) (reqCtx : Ctx) (body : Option BuildRequest) :
    (buildHandler cfg fx reqCtx body).tempDirRemoved
      = (buildHandler cfg fx reqCtx body).tempDirCreated := by
  unfold buildHandler
  dsimp only
  repeat' split
  all_goals rfl

/-- Claim C4: whenever a build job's temporary workspace directory was
created, the deferred recursive removal runs when the job ends, on every
exit path (clone failure, install failure, unsupported platform, build
failure, file-open failure, or success): no workspace survives a
completed request. -/
theorem c4_workspace_always_removed
    (cfg : Config) (fx : Fx) (reqCtx : Ctx) (body : Option BuildRequest)
    (h : (buildHandler cfg fx reqCtx body).tempDirCreated = true) :
    (buildHandler cfg fx reqCtx body).tempDirRemoved = true := by
  rw [buildHandler_removed_eq_created]
  exact h

/-- Witness for C4 at a fully successful build. -/
theorem c4_workspace_removed_witness :
    (buildHandler sampleConfig happyFx Ctx.background (some androidReq)).tempDirCreated = true
    ∧ (buildHandler sampleConfig happyFx Ctx.background (some androidReq)).tempDirRemoved = true :=
  ⟨rfl, c4_workspace_always_removed sampleConfig happyFx Ctx.background (some androidReq) rfl⟩

/-- Claim C6: a request to `/build` (resp. `/update`) whose
`Authorization` header is not exactly `"Bearer "` followed by the
configured `AUTH_TOKEN` (resp. `UPDATE_AUTH_TOKEN`) gets a 401 response
and nothing else happens: no workspace is created, no step runs, and the
update script is not started. -/
theorem c6_auth_mismatch_rejected
    (cfg : Config) (fx : Fx) (reqCtx : Ctx) (body : Option BuildRequest)
    (authHeader buildSecret updHeader updSecret : String)
    (h1 : authHeader ≠ "Bearer " ++ buildSecret)
    (h2 : updHeader ≠ "Bearer " ++ updSecret) :
    (buildEndpoint cfg fx reqCtx authHeader buildSecret body).status = 401
    ∧ (buildEndpoint cfg fx reqCtx authHeader buildSecret body).tempDirCreated = false
    ∧ (buildEndpoint cfg fx reqCtx authHeader buildSecret body).clone = none
    ∧ (buildEndpoint cfg fx reqCtx authHeader buildSecret body).install = none
    ∧ (buildEndpoint cfg fx reqCtx authHeader buildSecret body).build = none
    ∧ (updateHandler cfg updSecret updHeader).status = 401
    ∧ (updateHandler cfg updSecret updHeader).startedUpdate = false
    ∧ (updateHandler cfg updSecret updHeader).scriptRun = none := by
  unfold buildEndpoint authenticate updateHandler unauthorizedBuildTrace
  simp [h1, h2]

/-- Witness for C6 at a concrete mismatched header. -/
theorem c6_auth_mismatch_witness :
    (buildEndpoint sampleConfig happyFx Ctx.background "Bearer wrong" "secret" (some androidReq)).status = 401
    ∧ (buildEndpoint sampleConfig happyFx Ctx.background "Bearer wrong" "secret" (some androidReq)).tempDirCreated = false
    ∧ (buildEndpoint sampleConfig happyFx Ctx.background "Bearer wrong" "secret" (some androidReq)).clone = none
    ∧ (buildEndpoint sampleConfig happyFx Ctx.background "Bearer wrong" "secret" (some androidReq)).install = none
    ∧ (buildEndpoint sampleConfig happyFx Ctx.background "Bearer wrong" "secret" (some androidReq)).build = none
    ∧ (updateHandler sampleConfig "usecret" "Bearer nope").status = 401
    ∧ (updateHandler sampleConfig "usecret" "Bearer nope").startedUpdate = false
    ∧ (updateHandler sampleConfig "usecret" "Bearer nope").scriptRun = none :=
  c6_auth_mismatch_rejected sampleConfig happyFx Ctx.background (some androidReq)
    "Bearer wrong" "secret" "Bearer nope" "usecret" (by decide) (by decide)

/-- `buildHandler` itself never writes 401: its statuses are 400, 500
and 200.  (Authentication is the wrapping middleware's job.) -/
theorem buildHandler_status_ne_401
    (cfg : Config) (fx : Fx) (reqCtx : Ctx) (body : Option BuildRequest) :
    (buildHandler cfg fx reqCtx body).status ≠ 401 := by
  unfold buildHandler
  dsimp only
  repeat' split
  all_goals simp

/-- Claim C7: authentication on `/build` and `/update` accepts a request
exactly when the `Authorization` header equals the concatenation
`"Bearer " ++ secret`; in particular, with an unset/empty secret, the
header `"Bearer "` is accepted — empty secrets are not rejected. -/
theorem c7_auth_exact_string_match
    (cfg : Config) (fx : Fx) (reqCtx : Ctx) (body : Option BuildRequest)
    (authHeader secret updHeader updSecret : String) :
    ((buildEndpoint cfg fx reqCtx authHeader secret body).status = 401
        ↔ authHeader ≠ "Bearer " ++ secret)
    ∧ ((updateHandler cfg updSecret updHeader).startedUpdate = true
        ↔ updHeader = "Bearer " ++ updSecret)
    ∧ (buildEndpoint cfg fx reqCtx "Bearer " "" body).status ≠ 401
    ∧ (updateHandler cfg "" "Bearer ").startedUpdate = true := by
  have hb : ("Bearer " ++ "" : String) = "Bearer " := rfl
  refine ⟨?_, ?_, ?_, ?_⟩
  · unfold buildEndpoint authenticate unauthorizedBuildTrace
    by_cases h : authHeader = "Bearer " ++ secret
    · simp [h, buildHandler_status_ne_401]
    · simp [h]
  · unfold updateHandler
    by_cases h : updHeader = "Bearer " ++ updSecret
    · simp [h]
    · simp [h]
  · unfold buildEndpoint authenticate
    rw [hb]
    simp [buildHandler_status_ne_401]
  · unfold updateHandler
    rw [hb]
    simp

/-- Claim C8: when the platform is valid and the `eas` build process
exits successfully, `buildApp` additionally stats the output artifact at
the package directory joined with the output file name, and returns a
build failure when the file is absent even though the process reported
success. -/
theorem c8_output_artifact_checked
    (fx : AppFx) (ctx : Ctx) (packagePath platform outputFile : String)
    (hplat : validPlatforms platform = true)
    (hexit : fx.easExit = none)
    (hstat : fx.statBuilt = StatResult.notExist) :
    (buildApp fx ctx packagePath platform outputFile).spawned
      = some (ctx, easBuildArgv platform outputFile, packagePath)
    ∧ (buildApp fx ctx packagePath platform outputFile).result
      = some (BuildError.builtFileNotFound (filepathJoin packagePath outputFile)) := by
  unfold buildApp
  simp [hplat, hexit, hstat]

/-- Witness for C8: a successful `eas` exit with no artifact on disk. -/
theorem c8_output_artifact_witness :
    (buildApp { easExit := none, easOutput := "", statBuilt := StatResult.notExist }
        Ctx.background "/tmp/b/repo/app" "android" "app-20250101-1200.apk").spawned
      = some (Ctx.background, easBuildArgv "android" "app-20250101-1200.apk", "/tmp/b/repo/app")
    ∧ (buildApp { easExit := none, easOutput := "", statBuilt := StatResult.notExist }
        Ctx.background "/tmp/b/repo/app" "android" "app-20250101-1200.apk").result
      = some (BuildError.builtFileNotFound (filepathJoin "/tmp/b/repo/app" "app-20250101-1200.apk")) :=
  c8_output_artifact_checked { easExit := none, easOutput := "", statBuilt := StatResult.notExist }
    Ctx.background "/tmp/b/repo/app" "android" "app-20250101-1200.apk" rfl rfl rfl

/-- Claim C10: a `/build` request whose JSON body is malformed, or any of
whose three required fields is empty, gets a 400 response with no side
effect: no temporary directory is created and no clone, install or build
step runs. -/
theorem c10_invalid_body_no_side_effects
    (cfg : Config) (fx : Fx) (reqCtx : Ctx) (body : Option BuildRequest)
    (h : body = none ∨ ∃ req, body = some req ∧
        (req.RepoURL = "" ∨ req.Platform = "" ∨ req.PackagePath = "")) :
    (buildHandler cfg fx reqCtx body).status = 400
    ∧ (buildHandler cfg fx reqCtx body).tempDirCreated = false
    ∧ (buildHandler cfg fx reqCtx body).clone = none
    ∧ (buildHandler cfg fx reqCtx body).install = none
    ∧ (buildHandler cfg fx reqCtx body).build = none := by
  rcases h with h | ⟨req, hb, hf⟩
  · subst h
    exact ⟨rfl, rfl, rfl, rfl, rfl⟩
  · subst hb
    have hcond : (req.RepoURL = "" || req.Platform = "" || req.PackagePath = "") = true := by
      rcases hf with h | h | h <;> simp [h]
    unfold buildHandler
    simp [hcond]

/-- Witness for C10 at a body missing the platform field. -/
theorem c10_invalid_body_witness :
    (buildHandler sampleConfig happyFx Ctx.background
        (some { RepoURL := "https://example.com/app.git", Platform := ""
                PackagePath := "app", UpdateServer := false })).status = 400
    ∧ (buildHandler sampleConfig happyFx Ctx.background
        (some { RepoURL := "https://example.com/app.git", Platform := ""
                PackagePath := "app", UpdateServer := false })).tempDirCreated = false
    ∧ (buildHandler sampleConfig happyFx Ctx.background
        (some { RepoURL := "https://example.com/app.git", Platform := ""
                PackagePath := "app", UpdateServer := false })).clone = none
    ∧ (buildHandler sampleConfig happyFx Ctx.background
        (some { RepoURL := "https://example.com/app.git", Platform := ""
                PackagePath := "app", UpdateServer := false })).install = none
    ∧ (buildHandler sampleConfig happyFx Ctx.background
        (some { RepoURL := "https://example.com/app.git", Platform := ""
                PackagePath := "app", UpdateServer := false })).build = none :=
  c10_invalid_body_no_side_effects sampleConfig happyFx Ctx.background
    (some { RepoURL := "https://example.com/app.git", Platform := ""
            PackagePath := "app", UpdateServer := false })
    (Or.inr ⟨_, rfl, Or.inr (Or.inl rfl)⟩)

/-- Any context recorded by a `cloneOrUpdateRepo` process launch is the
context the call received. -/
theorem cloneSpawnCtxs_all (fx : CloneFx) (c : Ctx) (u p : String) (q : Ctx → Bool)
    (hq : q c = true) :
    (cloneSpawnCtxs (cloneOrUpdateRepo fx c u p).spawned).all q = true := by
  unfold cloneOrUpdateRepo
  repeat' split
  all_goals simp_all [cloneSpawnCtxs]

/-- Any context recorded by a `runNpmInstall` process launch is the
context the call received. -/
theorem installSpawnCtxs_all (fx : NpmFx) (c : Ctx) (p : String) (q : Ctx → Bool)
    (hq : q c = true) :
    (installSpawnCtxs (runNpmInstall fx c p).spawned).all q = true := by
  unfold runNpmInstall
  repeat' split
  all_goals simp_all [installSpawnCtxs]

/-- Any context recorded by a `buildApp` process launch is the context
the call received. -/
theorem buildSpawnCtxs_all (fx : AppFx) (c : Ctx) (pp pl o : String) (q : Ctx → Bool)
    (hq : q c = true) :
    (buildSpawnCtxs (buildApp fx c pp pl o).spawned).all q = true := by
  unfold buildApp
  repeat' split
  all_goals simp_all [buildSpawnCtxs]

/-- Claim C9: the build job's timeout is `config.BuildTimeout`, which is
one hour when `BUILD_TIMEOUT` is absent (default string `"60m"`, given
that Go's `time.ParseDuration` parses `"60m"` to 60 minutes) or
unparsable (the explicit 60-minute fallback of `parseDuration`); and
every external-process invocation of the job — clone, install, build —
receives the single context `context.WithTimeout(r.Context(),
config.BuildTimeout)`, through which deadline expiry cancels and kills
the in-flight process (`exec.CommandContext` semantics). -/
theorem c9_single_deadline_on_every_process
    (env : String → String) (timeParse : String → Option Int) (badStr : String)
    (cfg : Config) (fx : Fx) (reqCtx : Ctx) (body : Option BuildRequest)
    (habsent : env "BUILD_TIMEOUT" = "")
    (hstdlib : timeParse "60m" = some 3600000000000)
    (hbad : timeParse badStr = none) :
    (loadConfig env timeParse).BuildTimeout = 3600000000000
    ∧ parseDuration timeParse badStr = 3600000000000
    ∧ (spawnedCtxList (buildHandler cfg fx reqCtx body)).all
        (fun c => decide (c = Ctx.withTimeout reqCtx cfg.BuildTimeout)) = true := by
  refine ⟨?_, ?_, ?_⟩
  · unfold loadConfig getEnv parseDuration
    rw [habsent]
    simp [hstdlib]
  · unfold parseDuration
    rw [hbad]
    unfold goMinuteNs
    norm_num
  · unfold buildHandler
    dsimp only
    repeat' split
    all_goals
      simp only [spawnedCtxList, List.all_append, Bool.and_eq_true, List.all_nil,
        and_true, true_and]
    all_goals
      repeat'
        first
          | exact cloneSpawnCtxs_all _ _ _ _ _ (by simp)
          | exact installSpawnCtxs_all _ _ _ _ (by simp)
          | exact buildSpawnCtxs_all _ _ _ _ _ _ (by simp)
          | rfl
          | constructor

/-- Witness for C9: empty environment, a parse oracle correct on
`"60m"`, an unparsable string, and a fully successful concrete build. -/
theorem c9_single_deadline_witness :
    (loadConfig (fun _ => "") sampleTimeParse).BuildTimeout = 3600000000000
    ∧ parseDuration sampleTimeParse "bogus" = 3600000000000
    ∧ (spawnedCtxList (buildHandler sampleConfig happyFx Ctx.background (some androidReq))).all
        (fun c => decide (c = Ctx.withTimeout Ctx.background sampleConfig.BuildTimeout)) = true :=
  c9_single_deadline_on_every_process (fun _ => "") sampleTimeParse "bogus"
    sampleConfig happyFx Ctx.background (some androidReq) rfl (by decide) (by decide)
